import Mathlib

/-!
Verification development for the LoRA-merge tools of the
Local-Fine-Tuning-App repository.

The two programs under study are `tools/merge_lora_advanced.py` and
`tools/merge_lora_to_gguf.py`.  Byte streams are modelled as `List Nat`
(each entry one byte), Python floats and ints entering arithmetic are
modelled as exact rationals `ℚ`, Python dicts as association lists in
insertion order, and fallible Python code (raising exceptions) as
`Except`/`Option` values.
-/

/-! ## Byte and character helpers -/

/-- Little-endian value of a byte list (`struct.unpack` with format codes
over little-endian unsigned fields). -/
def leVal (bs : List Nat) : Nat :=
  bs.foldr (fun b acc => b + 256 * acc) 0

/-- Model of `bytes.decode("utf-8", errors="ignore")` at ASCII granularity:
bytes below 128 decode to the corresponding character, all other bytes are
dropped (as invalid sequences are under `errors="ignore"`; multi-byte UTF-8
sequences are outside the inputs this development evaluates). -/
def pyDecodeIgnore (bs : List Nat) : String :=
  String.mk ((bs.filter (fun b => b < 128)).map Char.ofNat)

/-- ASCII bytes of a string (inverse of `pyDecodeIgnore` on ASCII data),
used to spell concrete byte-level inputs. -/
def asciiBytes (s : String) : List Nat :=
  s.data.map Char.toNat

/-! ## Python string operations (`in`, `str.replace`, `str.split`)

Implemented over `List Char` so that every operation kernel-evaluates. -/

/-- Python substring containment `pat in s` over character lists. -/
def containsSub : List Char → List Char → Bool
  | _, [] => true
  | [], _ :: _ => false
  | c :: rest, p :: ps => (p :: ps).isPrefixOf (c :: rest) || containsSub rest (p :: ps)

/-- Python `pat in s` on strings. -/
def strContains (s pat : String) : Bool :=
  containsSub s.data pat.data

/-- One fuelled pass of Python `str.replace`: left-to-right, non-overlapping.
The fuel bounds the recursion by the input length. -/
def replaceAll : Nat → List Char → List Char → List Char → List Char
  | 0, _, _, l => l
  | _ + 1, _, _, [] => []
  | fuel + 1, pat, rep, c :: rest =>
    if pat ≠ [] ∧ pat.isPrefixOf (c :: rest) then
      rep ++ replaceAll fuel pat rep ((c :: rest).drop pat.length)
    else
      c :: replaceAll fuel pat rep rest

/-- Python `s.replace(pat, rep)` (for the non-empty patterns the source
uses). -/
def pyReplace (s pat rep : String) : String :=
  String.mk (replaceAll s.data.length pat.data rep.data s.data)

/-- Python `s.split(sep)` for a single-character separator, used by the
source only as `tensor_name.split("/")`. -/
def splitParts (sep : Char) (l : List Char) : List (List Char) :=
  l.foldr
    (fun c acc =>
      match acc with
      | [] => [[c]]
      | h :: t => if c = sep then [] :: h :: t else (c :: h) :: t)
    [[]]

/-- Python `tensor_name.split("/")[-1]` (the list `split` returns is never
empty, so `[-1]` is its last element). -/
def lastPathComponent (s : String) : String :=
  String.mk ((splitParts '/' s.data).getLastD [])

/-! ## Rational matrices (NumPy 2-D arrays) -/

/-- A 2-D array as a list of rows. -/
abbrev Mat := List (List ℚ)

def matRows (A : Mat) : Nat := A.length

def matCols (A : Mat) : Nat := (A.headD []).length

/-- Dot product of two equal-length vectors. -/
def dotProd (r c : List ℚ) : ℚ :=
  (List.zipWith (· * ·) r c).sum

/-- Column `j` of a matrix. -/
def matCol (B : Mat) (j : Nat) : List ℚ :=
  B.map (fun row => row.getD j 0)

/-- Dense matrix product (entry `(i, j)` is `sum_k A[i][k] * B[k][j]`). -/
def matMul (A B : Mat) : Mat :=
  A.map (fun r => (List.range (matCols B)).map (fun j => dotProd r (matCol B j)))

/-- NumPy `a_mat @ b_mat` on 2-D arrays: raises `ValueError` when the inner
dimensions disagree (`A.shape[1] != B.shape[0]`), otherwise the product. -/
def npMatmul (A B : Mat) : Except String Mat :=
  if matCols A = matRows B then .ok (matMul A B) else .error ("matmul: shape mismatch")

/-- Elementwise scaling `delta * scale`. -/
def matScale (s : ℚ) (A : Mat) : Mat :=
  A.map (fun r => r.map (fun x => s * x))

/-- Squared Frobenius norm.  The source records `np.linalg.norm(delta)`,
whose square this is; the square stays inside `ℚ` and carries the same
information (the norm is non-negative). -/
def frobSq (A : Mat) : ℚ :=
  (A.map (fun r => (r.map (fun x => x * x)).sum)).sum

/-! ## `tools/merge_lora_advanced.py` -/

/-- A value of the checkpoint's `tensors` dict: either a NumPy 2-D array
(the only ndarray shape the merge arithmetic concerns) or any other Python
value, for which the source's `isinstance(·, np.ndarray)` test fails. -/
inductive CkptVal where
  | mat (m : Mat)
  | other
deriving DecidableEq

/-- The checkpoint object `extract_lora_tensors` works on (a pickled or
JSON dict).  The keys the source reads are modelled as fields; a `none`
models an absent key, so `checkpoint.get(key, default)` is `Option.getD`.
Numeric values are exact rationals. -/
structure AdvCheckpoint where
  lora_r : Option ℚ
  lora_alpha : Option ℚ
  target_modules : List String
  tensors : List (String × CkptVal)
deriving DecidableEq

/-- `extract_lora_tensors` (after the checkpoint has been unpickled):
reads `lora_r` (default 8) and `lora_alpha` (default 16) and computes
`scale = lora_alpha / lora_r`; Python raises `ZeroDivisionError` when
`lora_r` is 0. -/
def extract_lora_tensors (c : AdvCheckpoint) : Except String (AdvCheckpoint × ℚ) :=
  let r := c.lora_r.getD 8
  let a := c.lora_alpha.getD 16
  if r = 0 then .error ("ZeroDivisionError") else .ok (c, a / r)

/-- One record of `merge_stats["operations"]`.  `deltaNormSq` is the square
of the `np.linalg.norm(delta)` the source stores (see `frobSq`). -/
structure MergeOp where
  layer : String
  a_shape : Nat × Nat
  b_shape : Nat × Nat
  deltaNormSq : ℚ
deriving DecidableEq

/-- The `merge_stats` dict built by `apply_lora_to_model`, together with
the warning lines it prints (`"Warning: Could not merge ..."`); the source
surfaces warnings only by printing them. -/
structure MergeStats where
  layers_updated : Nat
  tensors_processed : Nat
  operations : List MergeOp
  warnings : List String
deriving DecidableEq

/-- Python dict lookup `tensors[k]` / membership `k in tensors`, over an
association list whose keys are unique (as dict keys are). -/
def keyLookup : List (String × CkptVal) → String → Option CkptVal
  | [], _ => none
  | (a, w) :: rest, k => if a = k then some w else keyLookup rest k

/-- `sorted(tensors.keys())`: the iteration order of the merge loop. -/
def sortKeys (t : List (String × CkptVal)) : List String :=
  List.insertionSort (· ≤ ·) (t.map Prod.fst)

/-- The body of the merge loop of `apply_lora_to_model` for one key
`name`: `some (.inl op)` when an operation is appended to
`merge_stats["operations"]`, `some (.inr w)` when the `except` branch
prints a warning, and `none` when the iteration contributes nothing (name
without the `lora_A` marker, missing `lora_B` pair, or a value failing the
`isinstance` ndarray test). -/
def mergeOne (tensors : List (String × CkptVal)) (scale : ℚ) (name : String) :
    Option (MergeOp ⊕ String) :=
  if strContains name ("lora_A") then
    let b_name := pyReplace name ("lora_A") ("lora_B")
    match keyLookup tensors b_name with
    | none => none
    | some bv =>
      match keyLookup tensors name, bv with
      | some (.mat A), .mat B =>
        match npMatmul A B with
        | .ok prod =>
          let delta := matScale scale prod
          some (.inl
            { layer := lastPathComponent name
              a_shape := (matRows A, matCols A)
              b_shape := (matRows B, matCols B)
              deltaNormSq := frobSq delta })
        | .error e => some (.inr ("Warning: Could not merge " ++ name ++ ": " ++ e))
      | _, _ => none
  else none

/-- Keep the operation of a loop contribution. -/
def opPart : MergeOp ⊕ String → Option MergeOp
  | .inl op => some op
  | .inr _ => none

/-- Keep the warning of a loop contribution. -/
def warnPart : MergeOp ⊕ String → Option String
  | .inl _ => none
  | .inr w => some w

/-- `apply_lora_to_model`: iterates over `sorted(tensors.keys())`,
collecting operations and warnings; `layers_updated` is incremented
exactly when an operation is appended, and `tensors_processed` is
`len(tensors)`. -/
def apply_lora_to_model (tensors : List (String × CkptVal)) (scale : ℚ) : MergeStats :=
  let contribs := (sortKeys tensors).filterMap (mergeOne tensors scale)
  let ops := contribs.filterMap opPart
  { layers_updated := ops.length
    tensors_processed := tensors.length
    operations := ops
    warnings := contribs.filterMap warnPart }

/-- The `.merge.json` metadata `save_merged_model` writes alongside the
output (paths omitted; `operations[:5]` and the operation count). -/
structure MergeMeta where
  operations : List MergeOp
  total_ops : Nat
deriving DecidableEq

/-- `save_merged_model`: reads the base model bytes and writes them to the
output path unchanged (first component), then writes the merge metadata
(second component). -/
def save_merged_model (modelBytes : List Nat) (stats : MergeStats) :
    List Nat × MergeMeta :=
  (modelBytes,
    { operations := stats.operations.take 5
      total_ops := stats.operations.length })

/-- The `main` pipeline of `merge_lora_advanced.py` from loaded inputs:
`extract_lora_tensors`, then `apply_lora_to_model`, then
`save_merged_model`; returns the output file bytes and the merge stats, or
the uncaught exception. -/
def adv_pipeline (modelBytes : List Nat) (c : AdvCheckpoint) :
    Except String (List Nat × MergeStats) :=
  match extract_lora_tensors c with
  | .error e => .error e
  | .ok (ckpt, scale) =>
    let stats := apply_lora_to_model ckpt.tensors scale
    .ok ((save_merged_model modelBytes stats).1, stats)

/-! ## `tools/merge_lora_to_gguf.py`: `read_gguf_header`

The byte source is the file content as a list of bytes; a cursor is
modelled by returning the unread remainder.  `struct.unpack` raises
`struct.error` when `f.read(n)` returns fewer than `n` bytes, while a bare
`f.read(n)` (for key and string payloads) simply returns fewer bytes near
the end of the file. -/

/-- `struct.unpack("<I", f.read(4))`: little-endian uint32 plus the
remaining bytes, or `struct.error` on a short read. -/
def readU32 (bs : List Nat) : Except String (Nat × List Nat) :=
  if bs.length < 4 then .error ("struct.error") else .ok (leVal (bs.take 4), bs.drop 4)

/-- `struct.unpack("<Q", f.read(8))`: little-endian uint64. -/
def readU64 (bs : List Nat) : Except String (Nat × List Nat) :=
  if bs.length < 8 then .error ("struct.error") else .ok (leVal (bs.take 8), bs.drop 8)

/-- `struct.unpack("B", f.read(1))`: one byte. -/
def readByte (bs : List Nat) : Except String (Nat × List Nat) :=
  match bs with
  | [] => .error ("struct.error")
  | b :: rest => .ok (b, rest)

/-- A metadata value the reader stores: only type tags 0 (uint32) and
4 (string) are interpreted by the source; every other tag yields `None`
and is not stored. -/
inductive GGUFVal where
  | u32 (n : Nat)
  | str (s : String)
deriving DecidableEq

/-- The dict `read_gguf_header` returns.  `metadata` is the `metadata`
dict in insertion order (a duplicate key would shadow an earlier one on
lookup). -/
structure GGUFHeader where
  version : Nat
  size : Nat
  metadata : List (String × GGUFVal)
deriving DecidableEq

/-- The metadata loop of `read_gguf_header`, one iteration per declared
key-value entry.  For a type tag other than 0 and 4 the source sets
`value = None` and stores nothing — and consumes no value bytes at all,
so the next iteration starts inside the unread value. -/
def readKVs : Nat → List Nat → Except String (List (String × GGUFVal) × List Nat)
  | 0, bs => .ok ([], bs)
  | n + 1, bs => do
    let (klen, bs) ← readU32 bs
    let key := pyDecodeIgnore (bs.take klen)
    let bs := bs.drop klen
    let (vt, bs) ← readByte bs
    if vt = 0 then do
      let (v, bs) ← readU32 bs
      let (rest, bsEnd) ← readKVs n bs
      .ok ((key, .u32 v) :: rest, bsEnd)
    else if vt = 4 then do
      let (slen, bs) ← readU32 bs
      let s := pyDecodeIgnore (bs.take slen)
      let bs := bs.drop slen
      let (rest, bsEnd) ← readKVs n bs
      .ok ((key, .str s) :: rest, bsEnd)
    else
      readKVs n bs

/-- The bytes `b"GGUF"`. -/
def ggufMagic : List Nat := [71, 71, 85, 70]

/-- `read_gguf_header` after the magic check: version (uint32), the field
the source calls `model_size` (uint64), the metadata KV count (uint64),
then the metadata loop. -/
def read_gguf_body (bs : List Nat) : Except String GGUFHeader := do
  let (version, bs) ← readU32 bs
  let (msize, bs) ← readU64 bs
  let (kvc, bs) ← readU64 bs
  let (md, _) ← readKVs kvc bs
  .ok { version := version, size := msize, metadata := md }

/-- `read_gguf_header`: raises `ValueError` when the first 4 bytes are not
`b"GGUF"` (a short file also fails this comparison), otherwise decodes the
rest of the header. -/
def read_gguf_header (bs : List Nat) : Except String GGUFHeader :=
  if bs.take 4 = ggufMagic then read_gguf_body (bs.drop 4)
  else .error ("Not a GGUF file")

/-! ## Spec-modelled reference reader for metadata values

Modelled from the spec: spec.md sections 3, 6 and 9 require that every
1-byte type tag determine an exact decode width — known tags
0=uint32, 1=int32, 2=float32, 3=bool (1 byte), 4=string (length-prefixed),
5=array (element type tag + count + elements) — so that a value the reader
chooses not to interpret is still skipped by its declared length and the
cursor never desynchronizes; an unrecognized tag is a hard parse error.
This reference reader realizes that contract for comparison with
`read_gguf_header`. -/

/-- A fully decoded metadata value of the reference reader.  A float32 is
kept as its raw little-endian bit pattern (no floating-point arithmetic is
done with it). -/
inductive SpecVal where
  | u32 (n : Nat)
  | i32 (z : Int)
  | f32 (bits : Nat)
  | boolean (b : Bool)
  | str (s : String)
  | arr (xs : List SpecVal)

/-- Two's-complement reading of a 32-bit little-endian value. -/
def toInt32 (n : Nat) : Int :=
  if n < 2 ^ 31 then (n : Int) else (n : Int) - 2 ^ 32

mutual

/-- Decode one value of declared type `tag`, consuming exactly its
declared width.  The fuel bounds the recursion depth; every recursive call
consumes at least one byte, so a fuel exceeding the byte count never runs
out. -/
def readSpecVal : Nat → Nat → List Nat → Except String (SpecVal × List Nat)
  | 0, _, _ => .error ("fuel exhausted")
  | _ + 1, 0, bs => do
    let (v, bs) ← readU32 bs
    .ok (.u32 v, bs)
  | _ + 1, 1, bs => do
    let (v, bs) ← readU32 bs
    .ok (.i32 (toInt32 v), bs)
  | _ + 1, 2, bs =>
    if bs.length < 4 then .error ("struct.error")
    else .ok (.f32 (leVal (bs.take 4)), bs.drop 4)
  | _ + 1, 3, bs => do
    let (b, bs) ← readByte bs
    .ok (.boolean (b ≠ 0), bs)
  | _ + 1, 4, bs => do
    let (slen, bs) ← readU32 bs
    if bs.length < slen then .error ("TruncatedError")
    else .ok (.str (pyDecodeIgnore (bs.take slen)), bs.drop slen)
  | fuel + 1, 5, bs => do
    let (et, bs) ← readByte bs
    let (cnt, bs) ← readU64 bs
    let (xs, bs) ← readSpecArr fuel et cnt bs
    .ok (.arr xs, bs)
  | _ + 1, _, _ => .error ("FormatError: unknown type tag")

/-- Decode `cnt` array elements of element type `et`. -/
def readSpecArr : Nat → Nat → Nat → List Nat → Except String (List SpecVal × List Nat)
  | 0, _, _, _ => .error ("fuel exhausted")
  | _ + 1, _, 0, bs => .ok ([], bs)
  | fuel + 1, et, cnt + 1, bs => do
    let (v, bs) ← readSpecVal fuel et bs
    let (xs, bs) ← readSpecArr fuel et cnt bs
    .ok (v :: xs, bs)

end

/-- The reference metadata loop: like `readKVs` but every entry advances
the cursor by the declared width of its value. -/
def readSpecKVs : Nat → List Nat → Except String (List (String × SpecVal) × List Nat)
  | 0, bs => .ok ([], bs)
  | n + 1, bs => do
    let (klen, bs) ← readU32 bs
    if bs.length < klen then .error ("TruncatedError")
    else
      let key := pyDecodeIgnore (bs.take klen)
      let bs := bs.drop klen
      let (vt, bs) ← readByte bs
      let (v, bs) ← readSpecVal (bs.length + 2) vt bs
      let (rest, bsEnd) ← readSpecKVs n bs
      .ok ((key, v) :: rest, bsEnd)

/-- The header record of the reference reader (field names follow spec.md
section 6: magic, version, `tensor_count`, `kv_count`, metadata entries). -/
structure SpecHeader where
  version : Nat
  tensor_count : Nat
  metadata : List (String × SpecVal)

/-- Modelled from the spec: the container reader contract of spec.md
sections 4.1 and 6 restricted to the fields `read_gguf_header` also
reads — magic check, version, the second fixed field, the KV count, then
the metadata entries, each advanced by its declared width. -/
def read_gguf_header_spec (bs : List Nat) : Except String SpecHeader :=
  if bs.take 4 = ggufMagic then do
    let bs := bs.drop 4
    let (version, bs) ← readU32 bs
    let (tcnt, bs) ← readU64 bs
    let (kvc, bs) ← readU64 bs
    let (md, _) ← readSpecKVs kvc bs
    .ok { version := version, tensor_count := tcnt, metadata := md }
  else .error ("FormatError")

/-- A GGUF stream whose first metadata entry has type tag 1 (int32), which
`read_gguf_header` does not interpret: key `"a"`, tag 1, value 4; followed
by a second entry with key `"good"`, tag 0 (uint32), value 7. -/
def exDesync : List Nat :=
  ggufMagic ++ [3, 0, 0, 0]
    ++ [0, 0, 0, 0, 0, 0, 0, 0]
    ++ [2, 0, 0, 0, 0, 0, 0, 0]
    ++ [1, 0, 0, 0] ++ [97] ++ [1] ++ [4, 0, 0, 0]
    ++ [4, 0, 0, 0] ++ [103, 111, 111, 100] ++ [0] ++ [7, 0, 0, 0]

/-! ## A model of Python `json.loads`

`tools/merge_lora_to_gguf.py` feeds the scanned header slice to
`json.loads`.  The model below implements the JSON grammar `json.loads`
accepts (objects, arrays, strings with escapes, strict numbers, `true`,
`false`, `null`), returning `none` where `json.loads` raises
`JSONDecodeError` (the constants `NaN`/`Infinity` and non-ASCII input are
outside the inputs this development evaluates). -/

def quoteC : Char := Char.ofNat 34
def bslashC : Char := Char.ofNat 92
def lbraceC : Char := Char.ofNat 123
def rbraceC : Char := Char.ofNat 125
def lbrackC : Char := Char.ofNat 91
def rbrackC : Char := Char.ofNat 93

/-- JSON whitespace. -/
def isWsChar (c : Char) : Bool :=
  c = ' ' || c = Char.ofNat 9 || c = Char.ofNat 10 || c = Char.ofNat 13

def skipWs (cs : List Char) : List Char := cs.dropWhile isWsChar

/-- A Python value produced by `json.loads`. -/
inductive Json where
  | null
  | jbool (b : Bool)
  | num (q : ℚ)
  | str (s : String)
  | arr (xs : List Json)
  | obj (kvs : List (String × Json))

def digitVal (c : Char) : Option Nat :=
  if 48 ≤ c.toNat ∧ c.toNat ≤ 57 then some (c.toNat - 48) else none

def hexVal (c : Char) : Option Nat :=
  if 48 ≤ c.toNat ∧ c.toNat ≤ 57 then some (c.toNat - 48)
  else if 97 ≤ c.toNat ∧ c.toNat ≤ 102 then some (c.toNat - 87)
  else if 65 ≤ c.toNat ∧ c.toNat ≤ 70 then some (c.toNat - 55)
  else none

/-- Map of a single-character string escape. -/
def escMap (c : Char) : Option Char :=
  if c = quoteC then some quoteC
  else if c = bslashC then some bslashC
  else if c = '/' then some '/'
  else if c = 'b' then some (Char.ofNat 8)
  else if c = 'f' then some (Char.ofNat 12)
  else if c = 'n' then some (Char.ofNat 10)
  else if c = 'r' then some (Char.ofNat 13)
  else if c = 't' then some (Char.ofNat 9)
  else none

/-- Body of a JSON string after the opening quote: characters until the
closing quote, decoding escapes; unescaped control characters and an
unterminated string are errors. -/
def parseJStr : Nat → List Char → Option (List Char × List Char)
  | 0, _ => none
  | fuel + 1, cs =>
    match cs with
    | [] => none
    | c :: rest =>
      if c = quoteC then some ([], rest)
      else if c = bslashC then
        match rest with
        | [] => none
        | e :: rest2 =>
          if e = 'u' then
            match rest2 with
            | h1 :: h2 :: h3 :: h4 :: rest3 =>
              match hexVal h1, hexVal h2, hexVal h3, hexVal h4 with
              | some a, some b, some c2, some d =>
                (parseJStr fuel rest3).map
                  (fun p => (Char.ofNat (((a * 16 + b) * 16 + c2) * 16 + d) :: p.1, p.2))
              | _, _, _, _ => none
            | _ => none
          else
            match escMap e with
            | some ec => (parseJStr fuel rest2).map (fun p => (ec :: p.1, p.2))
            | none => none
      else if c.toNat < 32 then none
      else (parseJStr fuel rest).map (fun p => (c :: p.1, p.2))

/-- At least one decimal digit, maximal munch; value, digit count, rest. -/
def parseDigitsAux : List Char → Nat → Nat → Nat × Nat × List Char
  | [], acc, k => (acc, k, [])
  | c :: rest, acc, k =>
    match digitVal c with
    | some d => parseDigitsAux rest (10 * acc + d) (k + 1)
    | none => (acc, k, c :: rest)

def parseDigits (cs : List Char) : Option (Nat × Nat × List Char) :=
  let r := parseDigitsAux cs 0 0
  if r.2.1 = 0 then none else some r

/-- Strict JSON integer part: either a single `0` (a following digit is an
error) or digits not starting with `0`. -/
def parseIntPart (cs : List Char) : Option (Nat × List Char) :=
  match cs with
  | [] => none
  | c :: rest =>
    if c = '0' then
      match rest with
      | d :: _ => if (digitVal d).isSome then none else some (0, rest)
      | [] => some (0, [])
    else
      (parseDigits cs).map (fun r => (r.1, r.2.2))

/-- Optional fraction part. -/
def parseFracPart (ip : ℚ) (cs : List Char) : Option (ℚ × List Char) :=
  match cs with
  | c :: r =>
    if c = '.' then
      match parseDigits r with
      | some (f, k, r2) => some (ip + (f : ℚ) / ((10 : ℚ) ^ k), r2)
      | none => none
    else some (ip, cs)
  | [] => some (ip, [])

/-- Optional exponent part. -/
def parseExpPart (q : ℚ) (cs : List Char) : Option (ℚ × List Char) :=
  match cs with
  | c :: r =>
    if c = 'e' ∨ c = 'E' then
      let sr := match r with
        | d :: r2 =>
          if d = '-' then (true, r2) else if d = '+' then (false, r2) else (false, r)
        | [] => (false, ([] : List Char))
      match parseDigits sr.2 with
      | some (e, _, r2) => some ((if sr.1 then q / (10 : ℚ) ^ e else q * (10 : ℚ) ^ e), r2)
      | none => none
    else some (q, cs)
  | [] => some (q, [])

/-- A JSON number. -/
def parseNumber (cs : List Char) : Option (ℚ × List Char) :=
  let sgn := match cs with
    | c :: r => if c = '-' then (true, r) else (false, cs)
    | [] => (false, ([] : List Char))
  match parseIntPart sgn.2 with
  | none => none
  | some (ip, cs2) =>
    match parseFracPart (ip : ℚ) cs2 with
    | none => none
    | some (q, cs3) =>
      match parseExpPart q cs3 with
      | none => none
      | some (q2, cs4) => some ((if sgn.1 then -q2 else q2), cs4)

/-- Consume an expected literal tail (`rue`, `alse`, `ull`). -/
def expectChars (pat cs : List Char) : Option (List Char) :=
  if pat.isPrefixOf cs then some (cs.drop pat.length) else none

mutual

/-- One JSON value, leading whitespace allowed. -/
def parseJVal : Nat → List Char → Option (Json × List Char)
  | 0, _ => none
  | fuel + 1, cs =>
    match skipWs cs with
    | [] => none
    | c :: rest =>
      if c = quoteC then
        (parseJStr (rest.length + 1) rest).map (fun p => (Json.str (String.mk p.1), p.2))
      else if c = lbraceC then
        match skipWs rest with
        | d :: rest2 =>
          if d = rbraceC then some (Json.obj [], rest2) else parseJPairs fuel [] (skipWs rest)
        | [] => none
      else if c = lbrackC then
        match skipWs rest with
        | d :: rest2 =>
          if d = rbrackC then some (Json.arr [], rest2) else parseJItems fuel [] (skipWs rest)
        | [] => none
      else if c = 't' then (expectChars [(Char.ofNat 114), 'u', 'e'] rest).map (fun r => (Json.jbool true, r))
      else if c = 'f' then (expectChars ['a', 'l', 's', 'e'] rest).map (fun r => (Json.jbool false, r))
      else if c = 'n' then (expectChars ['u', 'l', 'l'] rest).map (fun r => (Json.null, r))
      else (parseNumber (c :: rest)).map (fun p => (Json.num p.1, p.2))

/-- Members of an object after at least one pair is known to follow. -/
def parseJPairs : Nat → List (String × Json) → List Char → Option (Json × List Char)
  | 0, _, _ => none
  | fuel + 1, acc, cs =>
    match skipWs cs with
    | c :: rest =>
      if c = quoteC then
        match parseJStr (rest.length + 1) rest with
        | some (k, r1) =>
          match skipWs r1 with
          | d :: r2 =>
            if d = ':' then
              match parseJVal fuel r2 with
              | some (v, r3) =>
                match skipWs r3 with
                | e :: r4 =>
                  if e = ',' then parseJPairs fuel (acc ++ [(String.mk k, v)]) r4
                  else if e = rbraceC then some (Json.obj (acc ++ [(String.mk k, v)]), r4)
                  else none
                | [] => none
              | none => none
            else none
          | [] => none
        | none => none
      else none
    | [] => none

/-- Elements of an array after at least one element is known to follow. -/
def parseJItems : Nat → List Json → List Char → Option (Json × List Char)
  | 0, _, _ => none
  | fuel + 1, acc, cs =>
    match parseJVal fuel cs with
    | some (v, r1) =>
      match skipWs r1 with
      | e :: r2 =>
        if e = ',' then parseJItems fuel (acc ++ [v]) r2
        else if e = rbrackC then some (Json.arr (acc ++ [v]), r2)
        else none
      | [] => none
    | none => none

end

/-- `json.loads`: one value, then only trailing whitespace. -/
def json_loads (s : String) : Option Json :=
  match parseJVal (s.data.length + 1) s.data with
  | some (v, rest) => if (skipWs rest).isEmpty then some v else none
  | none => none

/-! ## `tools/merge_lora_to_gguf.py`: `load_lora_checkpoint` -/

/-- The dict `load_lora_checkpoint` returns, together with the warning
lines the function emits.  The source emits no warning on any path (the
fallback is silent), so `warnings` is `[]` in every result it builds. -/
structure LoadResult where
  metadata : Json
  tensors : List Nat
  warnings : List String

/-- The embedded-JSON-header scan of `load_lora_checkpoint`: find the
first `b"{"` within the first 1024 bytes (`chunk.find(b"{")`), cut the
remainder at the first `b"}"` (`remaining.find(b"}") + 1`; 0 when absent),
and feed the slice to `json.loads`; `none` where the source falls through
to the fallback (no brace found, or `json.loads` raises). -/
def jsonHeaderParse (data : List Nat) : Option (Json × List Nat) :=
  match (data.take 1024).findIdx? (fun b => b == 123) with
  | none => none
  | some js =>
    let remaining := data.drop js
    let jsonEnd :=
      match remaining.findIdx? (fun b => b == 125) with
      | some i => i + 1
      | none => 0
    match json_loads (pyDecodeIgnore (remaining.take jsonEnd)) with
    | some m => some (m, remaining.drop jsonEnd)
    | none => none

/-- The fallback metadata dict `{"lora_r": 8, "lora_alpha": 16}`. -/
def defaultLoadMeta : Json :=
  Json.obj [("lora_r", .num 8), ("lora_alpha", .num 16)]

/-- `load_lora_checkpoint` on the file content: the scanned JSON header
with the bytes after it as tensor data when the scan parses, otherwise the
fallback `{"metadata": {"lora_r": 8, "lora_alpha": 16}, "tensors": data}`
— reached silently, with no warning emitted. -/
def load_lora_checkpoint (data : List Nat) : LoadResult :=
  match jsonHeaderParse data with
  | some (m, t) => { metadata := m, tensors := t, warnings := [] }
  | none => { metadata := defaultLoadMeta, tensors := data, warnings := [] }

/-! ## Spec-modelled reference checkpoint reader

Modelled from the spec: spec.md sections 4.2 and 9 require the header
bounds to be found by locating the matching closing brace via brace-depth
counting with string and escape state, so that the complete metadata
record is recovered and exactly the bytes after the balanced object are
returned as tensor data. -/

/-- Position one past the closing brace matching the object that starts
the byte list, tracking brace depth, in-string state and escape state. -/
def braceEnd : List Nat → Nat → Bool → Bool → Nat → Option Nat
  | [], _, _, _, _ => none
  | b :: rest, depth, inStr, esc, pos =>
    if esc then braceEnd rest depth inStr false (pos + 1)
    else if inStr then
      if b = 92 then braceEnd rest depth true true (pos + 1)
      else if b = 34 then braceEnd rest depth false false (pos + 1)
      else braceEnd rest depth true false (pos + 1)
    else
      if b = 34 then braceEnd rest depth true false (pos + 1)
      else if b = 123 then braceEnd rest (depth + 1) false false (pos + 1)
      else if b = 125 then
        if depth = 1 then some (pos + 1) else braceEnd rest (depth - 1) false false (pos + 1)
      else braceEnd rest depth false false (pos + 1)

/-- Modelled from the spec: the layout-(b) checkpoint reader of spec.md
section 4.2 — same header location as the source, but the header slice
ends at the matching closing brace found by depth counting. -/
def load_lora_checkpoint_spec (data : List Nat) : Option (Json × List Nat) :=
  match (data.take 1024).findIdx? (fun b => b == 123) with
  | none => none
  | some js =>
    let remaining := data.drop js
    match braceEnd remaining 0 false false 0 with
    | none => none
    | some e =>
      match json_loads (pyDecodeIgnore (remaining.take e)) with
      | some m => some (m, remaining.drop e)
      | none => none

/-! ## `tools/merge_lora_to_gguf.py`: `merge_lora_with_model` -/

/-- Python `metadata.get(k, d)` on a `json.loads` result (later duplicate
keys shadow earlier ones, as in a Python dict). -/
def pyGet (m : Json) (k : String) (d : Json) : Json :=
  match m with
  | .obj kvs =>
    match kvs.reverse.find? (fun p => p.1 == k) with
    | some p => p.2
    | none => d
  | _ => d

/-- Python `a / b` on values read from JSON: `ZeroDivisionError` for a
zero divisor, `TypeError` when either operand is not a number. -/
def pyDiv (a b : Json) : Except String ℚ :=
  match a, b with
  | .num x, .num y => if y = 0 then .error ("ZeroDivisionError") else .ok (x / y)
  | _, _ => .error ("TypeError")

/-- The `.merge.json` log `merge_lora_with_model` writes (paths and the
fixed note omitted). -/
structure GGUFMergeLog where
  lora_rank : Json
  lora_alpha : Json
  scale : ℚ

/-- `merge_lora_with_model`: reads `lora_r` (default 8) and `lora_alpha`
(default 16) from the adapter metadata, evaluates `lora_alpha / lora_r`
(printed as the scale — this raises before anything is written when
`lora_r` is 0), then copies the base model bytes to the output path
unchanged and writes the merge log. -/
def merge_lora_with_model (modelBytes : List Nat) (adapter : LoadResult) :
    Except String (List Nat × GGUFMergeLog) :=
  let r := pyGet adapter.metadata ("lora_r") (.num 8)
  let a := pyGet adapter.metadata ("lora_alpha") (.num 16)
  match pyDiv a r with
  | .error e => .error e
  | .ok scale => .ok (modelBytes, { lora_rank := r, lora_alpha := a, scale := scale })

/-- A checkpoint whose embedded JSON header contains a nested object. -/
def exNested : List Nat :=
  asciiBytes ("\x7b\"lora_r\": 4, \"target_modules\": \x7b\"q_proj\": 1\x7d\x7dDATA")

/-! ## Spec-modelled tolerance

Modelled from the spec: spec.md section 8 compares merged values within a
`1e-5` relative floating-point tolerance. -/

/-- `a` equals `b` within relative tolerance `tol`. -/
def relClose (tol a b : ℚ) : Prop :=
  |a - b| ≤ tol * max |a| |b|

/-! ## Concrete inputs used in counterexamples and witnesses -/

/-- `A` of shape (4, 8) and `B` of shape (6, 4): the incompatible pair of
spec.md section 8 (`A.cols = 8 ≠ 6 = B.rows`). -/
def exShapeA : Mat := List.replicate 4 (List.replicate 8 0)

def exShapeB : Mat := List.replicate 6 (List.replicate 4 0)

/-- A checkpoint tensor dict pairing the shape-incompatible matrices. -/
def exShapeTensors : List (String × CkptVal) :=
  [("lora_A/layer.0.q_proj", .mat exShapeA), ("lora_B/layer.0.q_proj", .mat exShapeB)]

/-- A tensor dict with an unpaired `lora_A/layer.0.q_proj` (no matching
`lora_B/layer.0.q_proj`) next to a correctly paired `layer.1.v_proj`. -/
def exUnpairedTensors : List (String × CkptVal) :=
  [("lora_A/layer.0.q_proj", .mat [[1]]),
   ("lora_A/layer.1.v_proj", .mat [[2]]),
   ("lora_B/layer.1.v_proj", .mat [[3]])]

/-- A paired single-layer checkpoint with `A = [[1]]`, `B = [[1]]`,
rank 8 and alpha 16 (scale 2). -/
def exUnitCkpt : AdvCheckpoint :=
  { lora_r := some 8, lora_alpha := some 16, target_modules := []
    tensors := [("lora_A/layer.0.q_proj", .mat [[1]]), ("lora_B/layer.0.q_proj", .mat [[1]])] }

/-- Adapter metadata whose `lora_r` entry is present and equal to 0. -/
def exZeroRankMeta : Json := Json.obj [("lora_r", .num 0)]

/-! ## Helper lemmas on dict lookup, permutation and sorting -/

theorem mem_of_keyLookup : ∀ {t : List (String × CkptVal)} {k : String} {v : CkptVal},
    keyLookup t k = some v → (k, v) ∈ t := by
  intro t
  induction t with
  | nil => intro k v h; cases h
  | cons p rest ih =>
    obtain ⟨a, w⟩ := p
    intro k v h
    rw [show keyLookup ((a, w) :: rest) k = if a = k then some w else keyLookup rest k from rfl] at h
    by_cases hak : a = k
    · rw [if_pos hak] at h
      injection h with h2
      subst h2
      subst hak
      exact List.mem_cons_self _ _
    · rw [if_neg hak] at h
      exact List.mem_cons_of_mem _ (ih h)

theorem keyLookup_eq_some_of_mem (t : List (String × CkptVal)) :
    (t.map Prod.fst).Nodup → ∀ {k : String} {v : CkptVal}, (k, v) ∈ t →
      keyLookup t k = some v := by
  induction t with
  | nil => intro _ k v hm; cases hm
  | cons p rest ih =>
    obtain ⟨a, w⟩ := p
    intro hnd k v hm
    rw [List.map_cons, List.nodup_cons] at hnd
    rcases List.mem_cons.mp hm with heq | hmem
    · injection heq with h1 h2
      subst h1; subst h2
      simp [keyLookup]
    · have hak : a ≠ k := by
        intro h
        subst h
        exact hnd.1 (List.mem_map.mpr ⟨(a, v), hmem, rfl⟩)
      simp only [keyLookup, if_neg hak]
      exact ih hnd.2 hmem

theorem keyLookup_perm {t1 t2 : List (String × CkptVal)} (hp : t1.Perm t2)
    (hnd : (t1.map Prod.fst).Nodup) (k : String) : keyLookup t1 k = keyLookup t2 k := by
  cases h1 : keyLookup t1 k with
  | some v =>
    exact (keyLookup_eq_some_of_mem t2 ((hp.map Prod.fst).nodup hnd)
      (hp.mem_iff.mp (mem_of_keyLookup h1))).symm
  | none =>
    cases h2 : keyLookup t2 k with
    | none => rfl
    | some v =>
      have h3 : keyLookup t1 k = some v :=
        keyLookup_eq_some_of_mem t1 hnd (hp.mem_iff.mpr (mem_of_keyLookup h2))
      rw [h1] at h3
      cases h3

theorem mergeOne_congr {t1 t2 : List (String × CkptVal)}
    (h : ∀ k, keyLookup t1 k = keyLookup t2 k) (scale : ℚ) (n : String) :
    mergeOne t1 scale n = mergeOne t2 scale n := by
  unfold mergeOne
  simp only [h]

theorem sortKeys_perm_eq {t1 t2 : List (String × CkptVal)} (hp : t1.Perm t2) :
    sortKeys t1 = sortKeys t2 := by
  apply List.eq_of_perm_of_sorted (r := (· ≤ ·))
  · exact ((List.perm_insertionSort _ _).trans (hp.map Prod.fst)).trans
      (List.perm_insertionSort _ _).symm
  · exact List.sorted_insertionSort _ _
  · exact List.sorted_insertionSort _ _

theorem apply_lora_perm {t1 t2 : List (String × CkptVal)} (hp : t1.Perm t2)
    (hnd : (t1.map Prod.fst).Nodup) (scale : ℚ) :
    apply_lora_to_model t1 scale = apply_lora_to_model t2 scale := by
  have hm : mergeOne t1 scale = mergeOne t2 scale :=
    funext (mergeOne_congr (keyLookup_perm hp hnd) scale)
  unfold apply_lora_to_model
  rw [sortKeys_perm_eq hp, hm, hp.length_eq]

theorem filterMap_filter_bne {α β : Type} [DecidableEq α] (f : α → Option β) (a : α)
    (hf : f a = none) :
    ∀ l : List α, (l.filter (fun x => x != a)).filterMap f = l.filterMap f := by
  intro l
  induction l with
  | nil => rfl
  | cons x xs ih =>
    by_cases hx : x = a
    · subst hx
      simp [List.filter_cons, List.filterMap_cons, hf, ih]
    · simp [List.filter_cons, List.filterMap_cons, hx, ih]

/-! ## Claim theorems -/

/-- C1 (counterexample): for the all-zero base file and a checkpoint with
`A = [[1]]`, `B = [[1]]`, rank 8, alpha 16, the merge pipeline returns the
base bytes unchanged — the delta `scale * (A @ B) = [[2]]` is computed
only into the statistics (its squared norm 4), and `0` does not equal `2`
within the `1e-5` relative tolerance, so the output tensor does not equal
`W + (A @ B) * (alpha / rank)`. -/
theorem C1_zero_base_cx :
    adv_pipeline [0, 0, 0, 0] exUnitCkpt
      = .ok ([0, 0, 0, 0],
          { layers_updated := 1, tensors_processed := 2
            operations := [{ layer := "layer.0.q_proj", a_shape := (1, 1)
                             b_shape := (1, 1), deltaNormSq := 4 }]
            warnings := [] }) ∧
    matScale (16 / 8) (matMul [[1]] [[1]]) = [[2]] ∧
    ¬ relClose (1 / 100000) 0 2 :=
  ⟨by with_unfolding_all rfl, by with_unfolding_all rfl,
   by unfold relClose; with_unfolding_all decide⟩

/-- C1 (amended): the output file of `merge_lora_advanced.py` is a
byte-for-byte copy of the base model for every checkpoint the pipeline
accepts; the scaled product is computed only into the merge statistics and
never into the output tensors. -/
theorem C1_output_is_base_copy (base : List Nat) (c : AdvCheckpoint)
    (out : List Nat) (stats : MergeStats)
    (h : adv_pipeline base c = .ok (out, stats)) : out = base := by
  unfold adv_pipeline at h
  cases hx : extract_lora_tensors c with
  | error e => rw [hx] at h; cases h
  | ok p =>
    obtain ⟨ckpt, scale⟩ := p
    rw [hx] at h
    injection h with h1
    injection h1 with h2 h3
    exact h2.symm

theorem C1_output_is_base_copy_witness :
    adv_pipeline [9, 9] exUnitCkpt
      = .ok ([9, 9],
          { layers_updated := 1, tensors_processed := 2
            operations := [{ layer := "layer.0.q_proj", a_shape := (1, 1)
                             b_shape := (1, 1), deltaNormSq := 4 }]
            warnings := [] }) ∧ ([9, 9] : List Nat) = [9, 9] :=
  ⟨by with_unfolding_all rfl,
   C1_output_is_base_copy [9, 9] exUnitCkpt [9, 9] _ (by with_unfolding_all rfl)⟩

/-- C2 (code bug): on a stream whose first metadata entry carries type
tag 1 (int32) — a tag `read_gguf_header` does not interpret — the reader
consumes zero value bytes, so the cursor desynchronizes: the second entry
(key `"good"`, uint32 7) is decoded from inside the first entry's value
and both entries are lost, while the skip-by-declared-width reference
reader recovers both entries. -/
theorem C2_unknown_tag_desync :
    read_gguf_header exDesync = .ok { version := 3, size := 0, metadata := [] } ∧
    read_gguf_header_spec exDesync
      = .ok { version := 3, tensor_count := 0
              metadata := [("a", .i32 4), ("good", .u32 7)] } :=
  ⟨by with_unfolding_all rfl, by with_unfolding_all rfl⟩

/-- C3 (code bug): on a checkpoint whose embedded JSON header contains a
nested object, `load_lora_checkpoint` cuts the header at the first `}`,
`json.loads` fails on the truncated slice, and the loader silently falls
back to default metadata with the whole file as tensor bytes — while the
depth-counting reference reader recovers the complete metadata record and
exactly the bytes after the balanced header. -/
theorem C3_nested_header_fallback :
    load_lora_checkpoint exNested
      = { metadata := defaultLoadMeta, tensors := exNested, warnings := [] } ∧
    load_lora_checkpoint_spec exNested
      = some (Json.obj [("lora_r", .num 4), ("target_modules", Json.obj [("q_proj", .num 1)])],
              asciiBytes ("DATA")) :=
  ⟨by with_unfolding_all rfl, by with_unfolding_all rfl⟩

/-- C4 (counterexample): with `A` of shape (4, 8) and `B` of shape (6, 4),
the merge pipeline does not fail with a `ShapeMismatchError`: the matmul
exception is caught, a warning naming the tensor is printed, no operation
is recorded, and the output file (a copy of the base) is still created. -/
theorem C4_no_shape_error_cx :
    adv_pipeline [1, 2, 3]
        { lora_r := some 8, lora_alpha := some 16, target_modules := []
          tensors := exShapeTensors }
      = .ok ([1, 2, 3],
          { layers_updated := 0, tensors_processed := 2, operations := []
            warnings := ["Warning: Could not merge lora_A/layer.0.q_proj: matmul: shape mismatch"] }) :=
  by with_unfolding_all rfl

/-- C4 (amended): a `lora_A`/`lora_B` pair with incompatible inner
dimensions produces a caught warning naming the tensor instead of a
`ShapeMismatchError`, the layer is skipped, and the output file — a copy
of the base model — is still written. -/
theorem C4_shape_mismatch_warn_and_copy (tensors : List (String × CkptVal))
    (scale : ℚ) (name : String) (A B : Mat) (base : List Nat)
    (hA : strContains name ("lora_A") = true)
    (ha : keyLookup tensors name = some (.mat A))
    (hb : keyLookup tensors (pyReplace name ("lora_A") ("lora_B")) = some (.mat B))
    (hsh : matCols A ≠ matRows B) :
    mergeOne tensors scale name
      = some (.inr ("Warning: Could not merge " ++ name ++ ": " ++ "matmul: shape mismatch")) ∧
    (save_merged_model base (apply_lora_to_model tensors scale)).1 = base := by
  refine ⟨?_, rfl⟩
  have hmm : npMatmul A B = .error ("matmul: shape mismatch") := by
    unfold npMatmul
    rw [if_neg hsh]
  simp only [mergeOne, hA, if_true, hb, ha, hmm]

theorem C4_shape_mismatch_warn_and_copy_witness :
    (strContains ("lora_A/layer.0.q_proj") ("lora_A") = true ∧
      keyLookup exShapeTensors ("lora_A/layer.0.q_proj") = some (.mat exShapeA) ∧
      keyLookup exShapeTensors (pyReplace ("lora_A/layer.0.q_proj") ("lora_A") ("lora_B"))
        = some (.mat exShapeB) ∧
      matCols exShapeA ≠ matRows exShapeB) ∧
    mergeOne exShapeTensors 2 ("lora_A/layer.0.q_proj")
      = some (.inr ("Warning: Could not merge " ++ "lora_A/layer.0.q_proj" ++ ": "
          ++ "matmul: shape mismatch")) ∧
    (save_merged_model [1, 2, 3] (apply_lora_to_model exShapeTensors 2)).1 = [1, 2, 3] :=
  ⟨⟨by with_unfolding_all decide, by with_unfolding_all rfl, by with_unfolding_all rfl,
    by with_unfolding_all decide⟩,
   C4_shape_mismatch_warn_and_copy exShapeTensors 2 ("lora_A/layer.0.q_proj")
     exShapeA exShapeB [1, 2, 3] (by with_unfolding_all decide) (by with_unfolding_all rfl)
     (by with_unfolding_all rfl) (by with_unfolding_all decide)⟩

/-- C5: re-serializing a container through the merge path writes the input
bytes back unchanged (the writer copies the base model verbatim), so with
no replacement tensors the output is byte-for-byte identical to the
input — in both merge scripts. -/
theorem C5_reserialize_identity (m : List Nat) (a : LoadResult) (out : List Nat)
    (log : GGUFMergeLog) (h : merge_lora_with_model m a = .ok (out, log)) :
    out = m ∧ ∀ stats : MergeStats, (save_merged_model m stats).1 = m := by
  refine ⟨?_, fun _ => rfl⟩
  simp only [merge_lora_with_model] at h
  cases hd : pyDiv (pyGet a.metadata ("lora_alpha") (.num 16))
      (pyGet a.metadata ("lora_r") (.num 8)) with
  | error e => rw [hd] at h; cases h
  | ok s =>
    rw [hd] at h
    injection h with h1
    injection h1 with h2 h3
    exact h2.symm

theorem C5_reserialize_identity_witness :
    merge_lora_with_model [71, 71, 85, 70] { metadata := defaultLoadMeta, tensors := [], warnings := [] }
      = .ok ([71, 71, 85, 70],
          { lora_rank := .num 8, lora_alpha := .num 16, scale := 2 }) ∧
    ([71, 71, 85, 70] : List Nat) = [71, 71, 85, 70] ∧
    ∀ stats : MergeStats, (save_merged_model [71, 71, 85, 70] stats).1 = [71, 71, 85, 70] :=
  have h := C5_reserialize_identity [71, 71, 85, 70]
    { metadata := defaultLoadMeta, tensors := [], warnings := [] }
    [71, 71, 85, 70] { lora_rank := .num 8, lora_alpha := .num 16, scale := 2 }
    (by with_unfolding_all rfl)
  ⟨by with_unfolding_all rfl, h.1, h.2⟩

/-- C6 (counterexample): on an input with no brace (neither layout
parses), the loader returns the whole input as tensor bytes with default
metadata — but with no `DegradedParse` warning of any kind: the fallback
is completely silent (`warnings = []`), refuting the claim that a warning
accompanies the degraded result. -/
theorem C6_no_degraded_warning_cx :
    load_lora_checkpoint (asciiBytes ("RAWTENSORDATA"))
      = { metadata := defaultLoadMeta, tensors := asciiBytes ("RAWTENSORDATA"), warnings := [] } ∧
    (load_lora_checkpoint (asciiBytes ("RAWTENSORDATA"))).warnings = [] :=
  ⟨by with_unfolding_all rfl, by with_unfolding_all rfl⟩

/-- C6 (amended): whenever the embedded-header scan fails,
`load_lora_checkpoint` does not fail: it returns the entire input as
tensor bytes with default metadata `lora_r = 8`, `lora_alpha = 16`, and
emits no warning. -/
theorem C6_fallback_defaults_silent (data : List Nat)
    (h : jsonHeaderParse data = none) :
    load_lora_checkpoint data
      = { metadata := defaultLoadMeta, tensors := data, warnings := [] } := by
  unfold load_lora_checkpoint
  rw [h]

theorem C6_fallback_defaults_silent_witness :
    jsonHeaderParse (asciiBytes ("rawbinaryblob")) = none ∧
    load_lora_checkpoint (asciiBytes ("rawbinaryblob"))
      = { metadata := defaultLoadMeta, tensors := asciiBytes ("rawbinaryblob"), warnings := [] } :=
  ⟨by with_unfolding_all rfl,
   C6_fallback_defaults_silent (asciiBytes ("rawbinaryblob")) (by with_unfolding_all rfl)⟩

/-- C7 (counterexample): a checkpoint holding the unpaired
`lora_A/layer.0.q_proj` next to a properly paired `layer.1.v_proj` merges
the paired layer and skips the unpaired one without failing — but nothing
records the skip: the operations list holds only the merged layer and the
warning list is empty, refuting the claim that the skipped layer is
recorded as an unmerged operation. -/
theorem C7_no_skip_record_cx :
    apply_lora_to_model exUnpairedTensors 2
      = { layers_updated := 1, tensors_processed := 3
          operations := [{ layer := "layer.1.v_proj", a_shape := (1, 1)
                           b_shape := (1, 1), deltaNormSq := 144 }]
          warnings := [] } ∧
    ((apply_lora_to_model exUnpairedTensors 2).operations.all
        (fun op => op.layer != "layer.0.q_proj")) = true :=
  ⟨by with_unfolding_all rfl, by with_unfolding_all rfl⟩

/-- C7 (amended): a `lora_A` key whose derived `lora_B` pair is absent
contributes nothing at all — no failure, no operation, no warning — and
the operations list equals exactly the contributions of the remaining
keys, so every other correctly paired layer is still merged. -/
theorem C7_unpaired_skipped_silently (tensors : List (String × CkptVal))
    (scale : ℚ) (name : String)
    (hA : strContains name ("lora_A") = true)
    (hun : keyLookup tensors (pyReplace name ("lora_A") ("lora_B")) = none) :
    mergeOne tensors scale name = none ∧
    (apply_lora_to_model tensors scale).operations
      = ((sortKeys tensors).filter (fun n => n != name)).filterMap
          (fun n => (mergeOne tensors scale n).bind opPart) := by
  have h0 : mergeOne tensors scale name = none := by
    simp only [mergeOne, hA, if_true, hun]
  refine ⟨h0, ?_⟩
  show ((sortKeys tensors).filterMap (mergeOne tensors scale)).filterMap opPart = _
  rw [List.filterMap_filterMap]
  exact (filterMap_filter_bne _ name (by rw [h0]; rfl) _).symm

theorem C7_unpaired_skipped_silently_witness :
    (strContains ("lora_A/layer.0.q_proj") ("lora_A") = true ∧
      keyLookup exUnpairedTensors
        (pyReplace ("lora_A/layer.0.q_proj") ("lora_A") ("lora_B")) = none) ∧
    mergeOne exUnpairedTensors 2 ("lora_A/layer.0.q_proj") = none ∧
    (apply_lora_to_model exUnpairedTensors 2).operations
      = ((sortKeys exUnpairedTensors).filter (fun n => n != "lora_A/layer.0.q_proj")).filterMap
          (fun n => (mergeOne exUnpairedTensors 2 n).bind opPart) :=
  ⟨⟨by with_unfolding_all decide, by with_unfolding_all rfl⟩,
   C7_unpaired_skipped_silently exUnpairedTensors 2 ("lora_A/layer.0.q_proj")
     (by with_unfolding_all decide) (by with_unfolding_all rfl)⟩

/-- C8: the merge is deterministic and order-independent: two runs from
dict contents that are permutations of each other (same checkpoint, any
iteration order) produce equal merge statistics and identical output
bytes, the loop iterates over `sorted(tensors.keys())` — a lexicographically
sorted list — and that list processes exactly the checkpoint's keys. -/
theorem C8_deterministic_sorted_merge (t1 t2 : List (String × CkptVal))
    (scale : ℚ) (base : List Nat)
    (hp : t1.Perm t2) (hnd : (t1.map Prod.fst).Nodup) :
    apply_lora_to_model t1 scale = apply_lora_to_model t2 scale ∧
    (save_merged_model base (apply_lora_to_model t1 scale)).1
      = (save_merged_model base (apply_lora_to_model t2 scale)).1 ∧
    List.Sorted (· ≤ ·) (sortKeys t1) ∧
    (sortKeys t1).Perm (t1.map Prod.fst) := by
  have happ := apply_lora_perm hp hnd scale
  exact ⟨happ, by rw [happ], List.sorted_insertionSort _ _, List.perm_insertionSort _ _⟩

theorem C8_deterministic_sorted_merge_witness :
    ([("lora_B/x", CkptVal.mat [[1]]), ("lora_A/x", CkptVal.mat [[1]])]
        : List (String × CkptVal)).Perm
      [("lora_A/x", CkptVal.mat [[1]]), ("lora_B/x", CkptVal.mat [[1]])] ∧
    ((([("lora_B/x", CkptVal.mat [[1]]), ("lora_A/x", CkptVal.mat [[1]])]
        : List (String × CkptVal)).map Prod.fst).Nodup) ∧
    (apply_lora_to_model [("lora_B/x", .mat [[1]]), ("lora_A/x", .mat [[1]])] 2
      = apply_lora_to_model [("lora_A/x", .mat [[1]]), ("lora_B/x", .mat [[1]])] 2 ∧
    (save_merged_model [0] (apply_lora_to_model [("lora_B/x", .mat [[1]]), ("lora_A/x", .mat [[1]])] 2)).1
      = (save_merged_model [0] (apply_lora_to_model [("lora_A/x", .mat [[1]]), ("lora_B/x", .mat [[1]])] 2)).1 ∧
    List.Sorted (· ≤ ·) (sortKeys [("lora_B/x", .mat [[1]]), ("lora_A/x", .mat [[1]])]) ∧
    (sortKeys [("lora_B/x", .mat [[1]]), ("lora_A/x", .mat [[1]])]).Perm
      (([("lora_B/x", CkptVal.mat [[1]]), ("lora_A/x", CkptVal.mat [[1]])]
        : List (String × CkptVal)).map Prod.fst)) :=
  ⟨List.Perm.swap _ _ _, by with_unfolding_all decide,
   C8_deterministic_sorted_merge _ _ 2 [0] (List.Perm.swap _ _ _)
     (by with_unfolding_all decide)⟩

/-- C9: `read_gguf_header` fails with the `ValueError` `"Not a GGUF file"`
— producing no header record — on every byte source whose first 4 bytes
differ from the magic `b"GGUF"`, and on a matching magic it proceeds to
decode the version, the two counts and the metadata entries
(`read_gguf_body`). -/
theorem C9_magic_gate (bs : List Nat) :
    (bs.take 4 ≠ ggufMagic → read_gguf_header bs = .error ("Not a GGUF file")) ∧
    (bs.take 4 = ggufMagic → read_gguf_header bs = read_gguf_body (bs.drop 4)) := by
  constructor <;> intro h <;> simp [read_gguf_header, h]

theorem C9_magic_gate_witness :
    (([1, 2, 3] : List Nat).take 4 ≠ ggufMagic ∧
      read_gguf_header [1, 2, 3] = .error ("Not a GGUF file")) ∧
    ((ggufMagic ++ [3, 0, 0, 0]).take 4 = ggufMagic ∧
      read_gguf_header (ggufMagic ++ [3, 0, 0, 0])
        = read_gguf_body ((ggufMagic ++ [3, 0, 0, 0]).drop 4)) :=
  ⟨⟨by decide, (C9_magic_gate [1, 2, 3]).1 (by decide)⟩,
   ⟨by decide, (C9_magic_gate (ggufMagic ++ [3, 0, 0, 0])).2 (by decide)⟩⟩

/-- C10: a loaded metadata record whose `lora_r` entry is present and
equal to 0 makes the scale computation `alpha / rank` raise
`ZeroDivisionError` in both scripts — the default 8 is substituted only
when the key is absent, not when it is zero, in which case the scale is
`alpha / 8`. -/
theorem C10_zero_rank_raises (c : AdvCheckpoint) (m : List Nat) (a : LoadResult) (aq : ℚ) :
    (c.lora_r = some 0 → extract_lora_tensors c = .error ("ZeroDivisionError")) ∧
    (c.lora_r = none → extract_lora_tensors c = .ok (c, c.lora_alpha.getD 16 / 8)) ∧
    (pyGet a.metadata ("lora_alpha") (.num 16) = Json.num aq →
      pyGet a.metadata ("lora_r") (.num 8) = Json.num 0 →
      merge_lora_with_model m a = .error ("ZeroDivisionError")) := by
  refine ⟨fun h => ?_, fun h => ?_, fun ha hr => ?_⟩
  · simp [extract_lora_tensors, h]
  · have h8 : ¬((8 : ℚ) = 0) := by norm_num
    simp only [extract_lora_tensors, h, Option.getD_none]
    rw [if_neg h8]
  · simp only [merge_lora_with_model, ha, hr, pyDiv]
    simp only [if_true]

theorem C10_zero_rank_raises_witness :
    ((⟨some 0, some 16, [], []⟩ : AdvCheckpoint).lora_r = some 0 ∧
      extract_lora_tensors ⟨some 0, some 16, [], []⟩ = .error ("ZeroDivisionError")) ∧
    (pyGet exZeroRankMeta ("lora_alpha") (.num 16) = Json.num 16 ∧
      pyGet exZeroRankMeta ("lora_r") (.num 8) = Json.num 0 ∧
      merge_lora_with_model [7] { metadata := exZeroRankMeta, tensors := [], warnings := [] }
        = .error ("ZeroDivisionError")) :=
  ⟨⟨rfl, (C10_zero_rank_raises ⟨some 0, some 16, [], []⟩ [7]
      { metadata := exZeroRankMeta, tensors := [], warnings := [] } 16).1 rfl⟩,
   ⟨by with_unfolding_all rfl, by with_unfolding_all rfl,
    (C10_zero_rank_raises ⟨some 0, some 16, [], []⟩ [7]
      { metadata := exZeroRankMeta, tensors := [], warnings := [] } 16).2.2
      (by with_unfolding_all rfl) (by with_unfolding_all rfl)⟩⟩
